import Mathlib

/-!
Shallow embedding of the write/validate/resolve pipeline of
`temba/api/serializers.py` (a multi-tenant messaging platform's API write
path), together with theorems settling the frozen claims about it.

Conventions:
* Python `None` / absent dict keys become `Option.none`; Python truthiness of
  strings and lists is made explicit via `truthyStr` / `truthyList`.
* Fallible validation steps return `Except String α` carrying the error
  message raised via `ValidationError` in the source.
* Database querysets become explicit lists of records filtered by predicates
  mirroring the source's `.filter(...)` calls.
-/

/-- `TEL_SCHEME` constant from `temba.contacts.models`. -/
def TEL_SCHEME : String := "tel"

/-- Python truthiness of an optional string: `None` and `""` are falsy. -/
def truthyStr (o : Option String) : Bool :=
  match o with
  | none => false
  | some s => !s.isEmpty

/-- Python truthiness of an optional list: `None` and `[]` are falsy. -/
def truthyList {α : Type} (o : Option (List α)) : Bool :=
  match o with
  | none => false
  | some xs => !xs.isEmpty

/-- A JSON-ish value, the raw input shape fed to the serializers. -/
inductive JValue where
  | str (s : String)
  | int (n : Int)
  | bool (b : Bool)
  | arr (xs : List JValue)
  | obj (kvs : List (String × JValue))
  | null
  deriving Repr

/-- Is this raw value a JSON string? (`isinstance(data, basestring)`) -/
def JValue.isStr : JValue → Bool
  | .str _ => true
  | _ => false

/-- Is this raw value a JSON object? (`isinstance(data, dict)`) -/
def JValue.isObj : JValue → Bool
  | .obj _ => true
  | _ => false

namespace PhoneArrayField

/-- Helper for `PhoneArrayField.from_native`'s list branch: walk the list,
failing at the first non-string element, otherwise tagging each string with
the telecom scheme. -/
def collectPhones : List JValue → Except String (List (String × String))
  | [] => .ok []
  | .str s :: rest => do
      let urns ← collectPhones rest
      return (TEL_SCHEME, s) :: urns
  | v :: _ => .error ("Invalid phone: " ++ reprStr v)

/-- `PhoneArrayField.from_native`: a single string becomes a one-element list
of (tel, path) pairs; a list is rejected if longer than 100, otherwise each
element must be a string and is tagged with the tel scheme; anything else is
rejected. -/
def from_native (data : JValue) : Except String (List (String × String)) :=
  match data with
  | .str s => .ok [(TEL_SCHEME, s)]
  | .arr xs =>
      if xs.length > 100 then
        .error "You can only specify up to 100 numbers at a time."
      else collectPhones xs
  | v => .error ("Invalid phone: " ++ reprStr v)

end PhoneArrayField

/-! ## Generic write pipeline (structural stage)

`WriteSerializer.restore_fields` is from the source; the orchestration of the
later stages (per-field coercion/validation, cross-field validation, mutation,
each skipped once an earlier stage errored) is modelled from the spec: §4.1
stages 1-4 of the Validation Pipeline, since the framework superclass is not
part of the provided source. -/

/-- Outcome of one write request. `structuralError` carries the sentinel error
key and messages together with the (unchanged) store; `validationError` is a
stage 2-3 failure; `success` carries the mutated store and the result. -/
inductive WriteOutcome (σ ρ : Type) where
  | structuralError (state : σ) (key : String) (msgs : List String)
  | validationError (state : σ) (err : String)
  | success (state : σ) (result : ρ)
  deriving Repr

/-- The write pipeline: the structural check of `WriteSerializer.restore_fields`
(input must be a single key-value mapping, otherwise the request immediately
fails under the sentinel key with no further stage run), then field
restoration/validation, then cross-field validation, then mutation. -/
def runWritePipeline {α σ ρ : Type}
    (restoreFields : List (String × JValue) → Except String α)
    (performValidation : α → Except String α)
    (restoreObject : α → σ → σ × ρ)
    (data : JValue) (st : σ) : WriteOutcome σ ρ :=
  match data with
  | .obj kvs =>
      match restoreFields kvs with
      | .error e => .validationError st e
      | .ok attrs =>
          match performValidation attrs with
          | .error e => .validationError st e
          | .ok attrs2 =>
              let (st2, r) := restoreObject attrs2 st
              .success st2 r
  | _ => .structuralError st "non_field_errors"
      ["Request body should be a single JSON object"]

/-! ## Bulk message actions (`MsgBulkActionSerializer`) -/

/-- `INCOMING` direction constant from `temba.msgs.models`. -/
def INCOMING : String := "I"

/-- `OUTGOING` direction constant from `temba.msgs.models`. -/
def OUTGOING : String := "O"

/-- `ARCHIVED` visibility constant from `temba.msgs.models`. -/
def ARCHIVED : String := "A"

/-- Visible message visibility constant from `temba.msgs.models`. -/
def VISIBLE : String := "V"

/-- Deleted message visibility constant from `temba.msgs.models`. -/
def DELETED : String := "D"

/-- A stored Message row: tenant, direction, visibility state and labels. -/
structure MsgRec where
  id : Nat
  org : Nat
  direction : String
  visibility : String
  labels : List String
  deriving Repr, DecidableEq

/-- Modelled from the spec: `Msg.archive` (in `temba.msgs.models`, not part of
the provided source) is the per-message state transition to the archived
visibility (§4.6; the read serializer in the source reports `archived` as
`visibility == ARCHIVED`). -/
def Msg.archive (m : MsgRec) : MsgRec := { m with visibility := ARCHIVED }

/-- Modelled from the spec: `Msg.restore` is the per-message state transition
back to visible (§4.6). -/
def Msg.restore (m : MsgRec) : MsgRec := { m with visibility := VISIBLE }

/-- Modelled from the spec: `Msg.release` is the per-message delete transition
(§4.6). -/
def Msg.release (m : MsgRec) : MsgRec := { m with visibility := DELETED }

/-- Modelled from the spec: `Label.toggle_label` adds or removes a label on
each message of the set (§4.6, §8). -/
def Label.toggle_label (label : String) (add : Bool) (m : MsgRec) : MsgRec :=
  if add then
    if m.labels.contains label then m else { m with labels := m.labels ++ [label] }
  else
    { m with labels := m.labels.filter (fun l => l != label) }

/-- The per-message dispatch of `MsgBulkActionSerializer.restore_object` on one
matched message: label/unlabel go through the Label toggle, the rest through
the message state transitions. -/
def applyMsgAction (action : String) (label : Option String) (m : MsgRec) : MsgRec :=
  if action == "label" then Label.toggle_label (label.getD "") true m
  else if action == "unlabel" then Label.toggle_label (label.getD "") false m
  else if action == "archive" then Msg.archive m
  else if action == "unarchive" then Msg.restore m
  else if action == "delete" then Msg.release m
  else m

/-- The queryset filter of `MsgBulkActionSerializer.restore_object`:
`Msg.objects.filter(org=self.org, direction=INCOMING, pk__in=msg_ids)`. -/
def msgMatchesBulkFilter (org : Nat) (msg_ids : List Nat) (m : MsgRec) : Bool :=
  m.org == org && m.direction == INCOMING && msg_ids.contains m.id

/-- `MsgBulkActionSerializer.restore_object`: apply the action to every stored
message matched by the tenant/direction/id filter, leaving every other message
untouched; never fails. -/
def MsgBulkActionSerializer.restore_object (org : Nat) (action : String)
    (label : Option String) (msg_ids : List Nat) (db : List MsgRec) : List MsgRec :=
  db.map fun m =>
    if msgMatchesBulkFilter org msg_ids m then applyMsgAction action label m else m

/-! ## Flows and flow starts (`FlowRunStartSerializer`) -/

/-- A stored Flow row: tenant, identity, archived/active state, and — for
hidden single-message flows — the inline text it mirrors. -/
structure FlowRec where
  id : Nat
  uuid : String
  org : Nat
  name : String
  isActive : Bool
  isArchived : Bool
  singleMessageText : Option String := none
  deriving Repr, DecidableEq

/-- The possible outcomes of `FlowRunStartSerializer.validate_flow_uuid`.
`flowDoesNotExist` is the uncaught `Flow.DoesNotExist` exception raised by
`Flow.objects.get(uuid=flow_uuid)` when no row matches — not a validation
error; `archivedError` and `notFoundError` are the two `ValidationError`
messages of the source. -/
inductive FlowStartLookup where
  | flowDoesNotExist
  | archivedError
  | notFoundError (uuid : String)
  | resolved (f : FlowRec)
  deriving Repr, DecidableEq

/-- `FlowRunStartSerializer.validate_flow_uuid`: looks the flow up over all
tenants (`Flow.objects.get(uuid=flow_uuid)`, no org filter), then rejects
archived flows, then rejects flows of a different tenant with a not-found
message. -/
def FlowRunStartSerializer.validate_flow_uuid (org : Nat) (db : List FlowRec)
    (flow_uuid : String) : FlowStartLookup :=
  match db.find? (fun f => f.uuid == flow_uuid) with
  | none => .flowDoesNotExist
  | some flow =>
      if flow.isArchived then .archivedError
      else if org != flow.org then .notFoundError flow.uuid
      else .resolved flow

/-! ## Campaign events (`CampaignEventWriteSerializer`) -/

/-- `FLOW_EVENT` event-type constant from `temba.campaigns.models`. -/
def FLOW_EVENT : String := "F"

/-- `MESSAGE_EVENT` event-type constant from `temba.campaigns.models`. -/
def MESSAGE_EVENT : String := "M"

/-- A contact group row. -/
structure GroupRec where
  uuid : String
  name : String
  org : Nat
  isActive : Bool
  deriving Repr, DecidableEq

/-- A campaign row; `group` is the campaign's one group. -/
structure CampaignRec where
  id : Nat
  uuid : String
  name : String
  org : Nat
  group : GroupRec
  isActive : Bool := true
  deriving Repr, DecidableEq

/-- A campaign event row: stable identity (uuid), branch (`eventType`), the
backing flow (real flow or hidden single-message flow), the inline message for
the message branch, and the schedule configuration. -/
structure EventRec where
  uuid : String
  campaignUuid : String
  eventType : String
  flow : FlowRec
  message : Option String
  offset : Int
  unit : String
  deliveryHour : Int
  relativeTo : String
  deriving Repr, DecidableEq

/-- Modelled from the spec: `Flow.create_single_message` (in
`temba.flows.models`, not part of the provided source) creates a hidden
single-message Flow whose content mirrors the inline text (§4.5, glossary). -/
def Flow.create_single_message (org : Nat) (freshId : Nat) (freshUuid : String)
    (message : Option String) : FlowRec :=
  { id := freshId, uuid := freshUuid, org := org, name := "Single Message Flow",
    isActive := true, isArchived := false, singleMessageText := message }

/-- Modelled from the spec: `Flow.update_single_message_flow` (in
`temba.flows.models`, not part of the provided source) updates an existing
hidden single-message Flow so that its content mirrors the new inline text
(§4.5). -/
def Flow.update_single_message_flow (f : FlowRec) (message : String) : FlowRec :=
  { f with singleMessageText := some message }

/-- Modelled from the spec: the derived display name of the backing Flow,
computed from the event's current schedule configuration (§4.5: "the derived
display name of the backing Flow is recomputed from the event's current
configuration"). -/
def derivedFlowName (relativeTo : String) (offset : Int) (unit : String) : String :=
  "Event (" ++ relativeTo ++ " " ++ toString offset ++ " " ++ unit ++ ")"

/-- Modelled from the spec: `CampaignEvent.update_flow_name` (in
`temba.campaigns.models`, not part of the provided source) recomputes the
backing Flow's display name from the event's current configuration (§4.5). -/
def CampaignEvent.update_flow_name (e : EventRec) : EventRec :=
  { e with flow := { e.flow with
      name := derivedFlowName e.relativeTo e.offset e.unit } }

/-- Modelled from the spec: `CampaignEvent.create_flow_event` (in
`temba.campaigns.models`, not part of the provided source) creates a new
flow-branch event under the campaign (§4.5). -/
def CampaignEvent.create_flow_event (freshEventUuid : String)
    (campaignUuid : String) (relativeTo : String) (offset : Int) (unit : String)
    (flow : FlowRec) (deliveryHour : Int) : EventRec :=
  { uuid := freshEventUuid, campaignUuid := campaignUuid, eventType := FLOW_EVENT,
    flow := flow, message := none, offset := offset, unit := unit,
    deliveryHour := deliveryHour, relativeTo := relativeTo }

/-- Modelled from the spec: `CampaignEvent.create_message_event` creates a new
message-branch event backed by a fresh hidden single-message Flow (§4.5). -/
def CampaignEvent.create_message_event (org : Nat) (freshEventUuid : String)
    (freshFlowId : Nat) (freshFlowUuid : String) (campaignUuid : String)
    (relativeTo : String) (offset : Int) (unit : String) (message : Option String)
    (deliveryHour : Int) : EventRec :=
  { uuid := freshEventUuid, campaignUuid := campaignUuid,
    eventType := MESSAGE_EVENT,
    flow := Flow.create_single_message org freshFlowId freshFlowUuid message,
    message := message, offset := offset, unit := unit,
    deliveryHour := deliveryHour, relativeTo := relativeTo }

/-- The working attribute set of `CampaignEventWriteSerializer` after the
per-field stage: resolved objects (`event_obj`, `campaign_obj`, `flow_obj`) sit
next to the raw scalar fields. -/
structure CampaignEventAttrs where
  event_obj : Option EventRec := none
  campaign_obj : Option CampaignRec := none
  offset : Int := 0
  unit : String := "W"
  delivery_hour : Int := -1
  relative_to : String := ""
  message : Option String := none
  flow_obj : Option FlowRec := none
  deriving Repr, DecidableEq

/-- `CampaignEventWriteSerializer.validate`: exactly one of inline message and
resolved flow, and no campaign reference together with an existing event. -/
def CampaignEventWriteSerializer.validate (attrs : CampaignEventAttrs) :
    Except String CampaignEventAttrs :=
  if !(truthyStr attrs.message || attrs.flow_obj.isSome) then
    .error "Must specify either a flow or a message for the event"
  else if truthyStr attrs.message && attrs.flow_obj.isSome then
    .error "Events cannot have both a message and a flow"
  else if attrs.event_obj.isSome && attrs.campaign_obj.isSome then
    .error "Cannot specify campaign if updating an existing event"
  else .ok attrs

/-- `CampaignEventWriteSerializer.restore_object`: update the existing event
when one was resolved (flow branch: reassign flow, switch type, clear message;
message branch: set message, create the hidden single-message flow when
switching branch, otherwise update the existing hidden flow), apply the
schedule fields, and recompute the backing flow's name; otherwise create a new
event. `org`, `freshFlowId`, `freshFlowUuid`, `freshEventUuid` model the
tenant and the identities minted for newly created rows. -/
def CampaignEventWriteSerializer.restore_object (org : Nat)
    (freshFlowId : Nat) (freshFlowUuid : String) (freshEventUuid : String)
    (attrs : CampaignEventAttrs) : EventRec :=
  match attrs.event_obj with
  | some event0 =>
      let event :=
        match attrs.flow_obj with
        | some flow =>
            { event0 with flow := flow, eventType := FLOW_EVENT, message := none }
        | none =>
            let event1 := { event0 with message := attrs.message }
            if event1.eventType != MESSAGE_EVENT then
              { event1 with
                  flow := Flow.create_single_message org freshFlowId freshFlowUuid
                    event1.message,
                  eventType := MESSAGE_EVENT }
            else
              { event1 with
                  flow := Flow.update_single_message_flow event1.flow
                    (attrs.message.getD "") }
      let event := { event with
          offset := attrs.offset
          unit := attrs.unit
          deliveryHour := attrs.delivery_hour
          relativeTo := attrs.relative_to }
      CampaignEvent.update_flow_name event
  | none =>
      let event :=
        match attrs.flow_obj with
        | some flow =>
            CampaignEvent.create_flow_event freshEventUuid
              ((attrs.campaign_obj.map (fun c => c.uuid)).getD "")
              attrs.relative_to attrs.offset attrs.unit flow attrs.delivery_hour
        | none =>
            CampaignEvent.create_message_event org freshEventUuid freshFlowId
              freshFlowUuid ((attrs.campaign_obj.map (fun c => c.uuid)).getD "")
              attrs.relative_to attrs.offset attrs.unit attrs.message
              attrs.delivery_hour
      CampaignEvent.update_flow_name event

/-! ## Addressing engine and contacts (`ContactWriteSerializer`)

`ContactURN.parse_urn` / `normalize_urn` / `validate_urn` and the phone-number
library live outside the provided source (`temba.contacts.models` and the
external `phonenumbers` package), so they are modelled from the spec §4.3. -/

/-- Character-level ASCII lower-casing; the kernel evaluates it on concrete
inputs, unlike `String.toLower`. -/
def lowerChar (c : Char) : Char :=
  if c.toNat ≥ 65 && c.toNat ≤ 90 then Char.ofNat (c.toNat + 32) else c

/-- Case-folding of a whole string, character by character. -/
def strLower (s : String) : String := String.mk (s.toList.map lowerChar)

/-- Space-trimming of a string, character by character. -/
def strTrim (s : String) : String :=
  String.mk (((s.toList.dropWhile (fun c => c == ' ')).reverse.dropWhile
    (fun c => c == ' ')).reverse)

/-- Does the string start with the given character? -/
def strStartsWithChar (s : String) (c : Char) : Bool :=
  match s.toList with
  | [] => false
  | d :: _ => d == c

/-- Modelled from the spec: the recognized addressing schemes of the
Addressing Engine (§4.3: "scheme must be a recognized addressing scheme"). -/
def ContactURN.schemes : List String := [TEL_SCHEME, "twitter"]

/-- Split a character list at the first colon: (before, after), or `none`
when there is no colon. -/
def splitAtColon : List Char → Option (List Char × List Char)
  | [] => none
  | c :: rest =>
      if c == ':' then some ([], rest)
      else
        match splitAtColon rest with
        | none => none
        | some (a, b) => some (c :: a, b)

/-- Modelled from the spec: `ContactURN.parse_urn` (in
`temba.contacts.models`, not part of the provided source) splits a canonical
"scheme:path" string at the first colon and fails when the separator or the
scheme is absent (§4.3). -/
def ContactURN.parse_urn (raw : String) : Option (String × String) :=
  match splitAtColon raw.toList with
  | none => none
  | some (schemeChars, pathChars) =>
      if schemeChars.isEmpty then none
      else some (String.mk schemeChars, String.mk pathChars)

/-- The digit characters of a telephone path. -/
def telDigits (path : String) : String :=
  String.mk (path.toList.filter Char.isDigit)

/-- Modelled from the spec: the strict international telecom pattern — a
leading + followed by 8 to 15 decimal digits (§4.3). -/
def telPatternOk (path : String) : Bool :=
  match path.toList with
  | '+' :: digits =>
      digits.all Char.isDigit && decide (digits.length ≥ 8) &&
        decide (digits.length ≤ 15)
  | _ => false

/-- Modelled from the spec: the dial-code table consulted when a country hint
must supply the missing country code (§4.3). -/
def countryDialCode : String → Option String
  | "RW" => some "250"
  | "US" => some "1"
  | "GB" => some "44"
  | _ => none

/-- Modelled from the spec: telephone-path normalization to the international
canonical numeric form — an explicit leading + is kept (digits only after it),
otherwise the country hint's dial code is prepended; with no hint the path is
left as given and will fail validation (§4.3). -/
def normalizeTel (path : String) (country : Option String) : String :=
  if strStartsWithChar path '+' then "+" ++ telDigits path
  else
    match country.bind countryDialCode with
    | some dial => "+" ++ dial ++ telDigits path
    | none => path

/-- Modelled from the spec: `ContactURN.normalize_urn` — telecom paths go
through `normalizeTel` with the optional country hint; other schemes are
case-folded and trimmed only (§4.3). -/
def ContactURN.normalize_urn (scheme path : String) (country : Option String) :
    String × String :=
  if scheme == TEL_SCHEME then (scheme, normalizeTel path country)
  else (scheme, strLower (strTrim path))

/-- Modelled from the spec: `ContactURN.validate_urn` — the scheme must be
recognized; a telecom path must match the strict international pattern (+ and
8-15 digits); any other path must be non-empty (§4.3). -/
def ContactURN.validate_urn (scheme path : String) : Bool :=
  ContactURN.schemes.contains scheme &&
    (if scheme == TEL_SCHEME then telPatternOk path else !path.isEmpty)

/-- Modelled from the spec: the external phone-number library used by the
pipeline (parse with an optional country hint, possibility check, E164
formatting): a number is possible when its normalized form is + followed by
8-15 digits, and its E164 form is that normalized form (§4.3). -/
def phonenumbersParseE164 (phone : String) (country : Option String) :
    Option String :=
  let norm := normalizeTel phone country
  if telPatternOk norm then some norm else none

/-- A stored Contact row: identity, tenant, active flag, and its addresses as
"scheme:path" strings. -/
structure ContactRec where
  uuid : String
  org : Nat
  isActive : Bool
  urns : List String
  deriving Repr, DecidableEq

/-- Render an address pair the way the source builds its query strings
(`"%s:%s" % u`). -/
def urnString (u : String × String) : String := u.1 ++ ":" ++ u.2

/-- Django `__iexact`: case-insensitive string equality. -/
def iexact (a b : String) : Bool := strLower a == strLower b

/-- The working attribute set of `ContactWriteSerializer` after the per-field
stage: `urns` holds the resolved (scheme, path) pairs (or `none` when the
field was absent), `group_uuids` the resolved groups. -/
structure ContactAttrs where
  uuid : Option String := none
  name : Option String := none
  language : Option String := none
  urns : Option (List (String × String)) := none
  group_uuids : Option (List GroupRec) := none
  fields : Option (List (String × String)) := none
  phone : Option String := none
  groups : Option (List String) := none
  deriving Repr, DecidableEq

/-- The mutual-exclusion condition of `ContactWriteSerializer.validate`:
`(not urns and not phone and not uuid) or (urns and phone)`. -/
def contactExclusiveErr (attrs : ContactAttrs) : Bool :=
  ((attrs.urns.getD []).isEmpty && !truthyStr attrs.phone && !truthyStr attrs.uuid) ||
    (!(attrs.urns.getD []).isEmpty && truthyStr attrs.phone)

/-- The urns the uuid branch of `ContactWriteSerializer.validate` checks for
conflicts: rebuilt from the phone when one was supplied, otherwise the
resolved urns. -/
def contactCheckUrns (attrs : ContactAttrs) : List (String × String) :=
  if truthyStr attrs.phone then [(TEL_SCHEME, attrs.phone.getD "")]
  else attrs.urns.getD []

/-- The conflicting-contact query of `ContactWriteSerializer.validate`:
contacts of the tenant holding (case-insensitively) one of the supplied urns,
excluding the contact being updated itself. -/
def conflictingContacts (org : Nat) (db : List ContactRec) (uuid : String)
    (urns : List (String × String)) : List ContactRec :=
  db.filter fun c =>
    c.org == org &&
      c.urns.any (fun cu => (urns.map urnString).any (fun us => iexact cu us)) &&
      c.uuid != uuid

/-- `ContactWriteSerializer.validate`: the cross-field stage of the Contact
write — mutual exclusion over {urns, phone, uuid}, the groups/group_uuids
alias conflict, and (on the update path) the check that the supplied addresses
are not used by another contact of the tenant. -/
def ContactWriteSerializer.validate (org : Nat) (db : List ContactRec)
    (attrs : ContactAttrs) : Except String ContactAttrs :=
  if contactExclusiveErr attrs then
    .error "Must provide either urns, phone or uuid but only one of each"
  else if truthyList attrs.group_uuids && truthyList attrs.groups then
    .error "Parameter groups is deprecated and cannot be used together with group_uuids"
  else if truthyStr attrs.uuid then
    let urns := contactCheckUrns attrs
    if !urns.isEmpty then
      if !(conflictingContacts org db (attrs.uuid.getD "") urns).isEmpty then
        if truthyStr attrs.phone then .error "phone is used by another contact"
        else .error "URNs are used by other contacts"
      else .ok attrs
    else .ok attrs
  else .ok attrs

/-- `ContactWriteSerializer.validate_uuid`: a supplied non-empty uuid must
belong to an active contact of the tenant. -/
def ContactWriteSerializer.validate_uuid (org : Nat) (db : List ContactRec)
    (uuid : Option String) : Except String (Option String) :=
  match uuid with
  | none => .ok none
  | some u =>
      if u.isEmpty then .ok (some u)
      else if (db.filter fun c => c.org == org && c.uuid == u && c.isActive).isEmpty then
        .error ("Unable to find contact with UUID: " ++ u)
      else .ok (some u)

/-- `ContactWriteSerializer.validate_phone`: a supplied non-empty phone must
parse as a possible international number with no country hint and is replaced
by its E164 form. -/
def ContactWriteSerializer.validate_phone (phone : Option String) :
    Except String (Option String) :=
  match phone with
  | none => .ok none
  | some p =>
      if p.isEmpty then .ok (some p)
      else
        match phonenumbersParseE164 p none with
        | some e164 => .ok (some e164)
        | none => .error ("Invalid phone number: " ++ p)

/-- One step of `ContactWriteSerializer.validate_urns`: parse the raw string,
normalize it (no country hint on this path), validate the normalized pair. -/
def ContactWriteSerializer.validateOneUrn (urn : String) :
    Except String (String × String) :=
  match ContactURN.parse_urn urn with
  | none => .error ("Unable to parse URN: " ++ urn)
  | some (scheme, path) =>
      let np := ContactURN.normalize_urn scheme path none
      if ContactURN.validate_urn np.1 np.2 then .ok np
      else .error ("Invalid URN: " ++ urn)

/-- `ContactWriteSerializer.validate_urns` over the supplied list. -/
def ContactWriteSerializer.validate_urns :
    List String → Except String (List (String × String))
  | [] => .ok []
  | u :: rest => do
      let p ← ContactWriteSerializer.validateOneUrn u
      let ps ← ContactWriteSerializer.validate_urns rest
      return p :: ps

/-- `ContactWriteSerializer.validate_language`: when present, a non-empty
language must be one of the org's configured languages and is lower-cased; an
empty value clears the language. -/
def ContactWriteSerializer.validate_language (supported : List String)
    (language : Option String) : Except String (Option String) :=
  match language with
  | none => .ok none
  | some l =>
      if l.isEmpty then .ok none
      else if supported.isEmpty then
        .error "You do not have any languages configured for your organization."
      else if supported.contains (strLower l) then .ok (some (strLower l))
      else .error ("Language code is not supported: " ++ l)

/-- `ContactWriteSerializer.validate_fields`: every supplied key must match
one of the tenant's fields by key or by label; `orgFields` is the
(key, label) list of the request context. -/
def ContactWriteSerializer.validate_fields (orgFields : List (String × String))
    (fields : Option (List (String × String))) :
    Except String (Option (List (String × String))) :=
  match fields with
  | none => .ok none
  | some fs =>
      if fs.all (fun kv => orgFields.any fun f => f.1 == kv.1 || f.2 == kv.1) then
        .ok (some fs)
      else .error "Invalid contact field key"

/-- Modelled from the spec: `ContactGroup.is_valid_name` (in
`temba.contacts.models`, not part of the provided source): per the error
wording in the source, a valid name is non-blank and does not begin with
+ or - . -/
def ContactGroup.is_valid_name (name : String) : Bool :=
  !(strTrim name).isEmpty && !strStartsWithChar name '+' &&
    !strStartsWithChar name '-'

/-- `ContactWriteSerializer.validate_groups`: every supplied legacy group name
must be a valid group name. -/
def ContactWriteSerializer.validate_groups (groups : Option (List String)) :
    Except String (Option (List String)) :=
  match groups with
  | none => .ok none
  | some names =>
      if names.all ContactGroup.is_valid_name then .ok (some names)
      else .error "Invalid group name"

/-- Resolution of a list of group uuids against the tenant's active groups,
failing on the first miss (shared by the contact, flow-start and broadcast
serializers). -/
def resolveGroupUuids (org : Nat) (db : List GroupRec) :
    List String → Except String (List GroupRec)
  | [] => .ok []
  | u :: rest =>
      match db.find? (fun g => g.uuid == u && g.org == org && g.isActive) with
      | none => .error ("Unable to find contact group with uuid: " ++ u)
      | some g => do
          let gs ← resolveGroupUuids org db rest
          return g :: gs

/-- `ContactWriteSerializer.validate_group_uuids` over the supplied list. -/
def ContactWriteSerializer.validate_group_uuids (org : Nat) (db : List GroupRec)
    (group_uuids : Option (List String)) :
    Except String (Option (List GroupRec)) :=
  match group_uuids with
  | none => .ok none
  | some us => do
      let gs ← resolveGroupUuids org db us
      return some gs

/-- The raw (type-coerced) input of a Contact write (§6's Contact schema). -/
structure ContactInput where
  uuid : Option String := none
  name : Option String := none
  language : Option String := none
  urns : Option (List String) := none
  group_uuids : Option (List String) := none
  fields : Option (List (String × String)) := none
  phone : Option String := none
  groups : Option (List String) := none
  deriving Repr, DecidableEq

/-- The validation phase of `ContactWriteSerializer`: the per-field semantic
validators in field declaration order, then the cross-field `validate`
(pipeline stages 2 and 3). -/
def contactValidation (org : Nat) (contactsDb : List ContactRec)
    (groupsDb : List GroupRec) (supportedLangs : List String)
    (orgFields : List (String × String)) (inp : ContactInput) :
    Except String ContactAttrs := do
  let uuid ← ContactWriteSerializer.validate_uuid org contactsDb inp.uuid
  let language ← ContactWriteSerializer.validate_language supportedLangs inp.language
  let urns ←
    match inp.urns with
    | none => pure (none : Option (List (String × String)))
    | some rs => do
        let ps ← ContactWriteSerializer.validate_urns rs
        pure (some ps)
  let group_uuids ←
    ContactWriteSerializer.validate_group_uuids org groupsDb inp.group_uuids
  let fields ← ContactWriteSerializer.validate_fields orgFields inp.fields
  let phone ← ContactWriteSerializer.validate_phone inp.phone
  let groups ← ContactWriteSerializer.validate_groups inp.groups
  ContactWriteSerializer.validate org contactsDb
    { uuid := uuid, name := inp.name, language := language, urns := urns,
      group_uuids := group_uuids, fields := fields, phone := phone,
      groups := groups }

/-! ## Campaign writes (`CampaignWriteSerializer`) -/

/-- Python truthiness of an optional integer id: `None` and `0` are falsy. -/
def truthyNat (o : Option Nat) : Bool :=
  match o with
  | none => false
  | some n => n != 0

/-- Modelled from the spec: `Campaign.get_campaigns(org)` (in
`temba.campaigns.models`, not part of the provided source): the tenant's
campaigns; resolution always filters by tenant and active status (§4.4). -/
def Campaign.get_campaigns (org : Nat) (db : List CampaignRec) : List CampaignRec :=
  db.filter fun c => c.org == org && c.isActive

/-- The working attribute set of `CampaignWriteSerializer`: the raw fields
plus the resolved `campaign_obj` / `group_obj`. -/
structure CampaignWriteAttrs where
  uuid : Option String := none
  name : String := ""
  group_uuid : Option String := none
  campaign : Option Nat := none
  group : Option String := none
  campaign_obj : Option CampaignRec := none
  group_obj : Option GroupRec := none
  deriving Repr, DecidableEq

/-- `CampaignWriteSerializer.validate_uuid`: a supplied uuid must resolve to
one of the tenant's campaigns, attached as `campaign_obj`. -/
def CampaignWriteSerializer.validate_uuid (org : Nat) (db : List CampaignRec)
    (attrs : CampaignWriteAttrs) : Except String CampaignWriteAttrs :=
  match attrs.uuid with
  | none => .ok attrs
  | some u =>
      if u.isEmpty then .ok attrs
      else
        match (Campaign.get_campaigns org db).find? (fun c => c.uuid == u) with
        | some c => .ok { attrs with campaign_obj := some c }
        | none => .error ("No campaign with UUID " ++ u)

/-- `CampaignWriteSerializer.validate_campaign` (legacy id alias): a supplied
id must resolve to one of the tenant's campaigns, attached as
`campaign_obj`. -/
def CampaignWriteSerializer.validate_campaign (org : Nat)
    (db : List CampaignRec) (attrs : CampaignWriteAttrs) :
    Except String CampaignWriteAttrs :=
  match attrs.campaign with
  | none => .ok attrs
  | some cid =>
      if cid == 0 then .ok attrs
      else
        match (Campaign.get_campaigns org db).find? (fun c => c.id == cid) with
        | some c => .ok { attrs with campaign_obj := some c }
        | none => .error "No campaign with that id"

/-- `CampaignWriteSerializer.validate_group_uuid`: a supplied group uuid must
resolve to one of the tenant's active groups, attached as `group_obj`. -/
def CampaignWriteSerializer.validate_group_uuid (org : Nat)
    (db : List GroupRec) (attrs : CampaignWriteAttrs) :
    Except String CampaignWriteAttrs :=
  match attrs.group_uuid with
  | none => .ok attrs
  | some gu =>
      if gu.isEmpty then .ok attrs
      else
        match db.find? (fun g => g.org == org && g.isActive && g.uuid == gu) with
        | some g => .ok { attrs with group_obj := some g }
        | none => .error ("No contact group with UUID " ++ gu)

/-- `CampaignWriteSerializer.validate`: the cross-field stage — at least one
of group name and group uuid, and not both of the legacy campaign id and the
uuid. There is no check against supplying BOTH the group name and the group
uuid. -/
def CampaignWriteSerializer.validate (attrs : CampaignWriteAttrs) :
    Except String CampaignWriteAttrs :=
  if !truthyStr attrs.group && !truthyStr attrs.group_uuid then
    .error "Must specify either group name or group_uuid"
  else if truthyNat attrs.campaign && truthyStr attrs.uuid then
    .error "Cannot specify both campaign and uuid"
  else .ok attrs

/-- Modelled from the spec: `ContactGroup.get_or_create` (in
`temba.contacts.models`, not part of the provided source): resolve a group by
exact name within the tenant, creating it on a miss (§4.4, §4.5); returns the
group and the group store after the call. -/
def ContactGroup.get_or_create (org : Nat) (db : List GroupRec) (name : String)
    (freshUuid : String) : GroupRec × List GroupRec :=
  match db.find? (fun g => g.org == org && g.isActive && g.name == name) with
  | some g => (g, db)
  | none =>
      let g : GroupRec := ⟨freshUuid, name, org, true⟩
      (g, db ++ [g])

/-- `CampaignWriteSerializer.restore_object`: the resolved `group_obj` wins
when present, otherwise the legacy name goes through group get-or-create;
then the resolved campaign is updated in place, or a new campaign is created.
Returns the written campaign, the group store and the campaign store after. -/
def CampaignWriteSerializer.restore_object (org : Nat)
    (groupsDb : List GroupRec) (campaignsDb : List CampaignRec)
    (freshGroupUuid freshCampaignUuid : String) (freshCampaignId : Nat)
    (attrs : CampaignWriteAttrs) :
    CampaignRec × List GroupRec × List CampaignRec :=
  let gg :=
    match attrs.group_obj with
    | some g => (g, groupsDb)
    | none =>
        ContactGroup.get_or_create org groupsDb (attrs.group.getD "") freshGroupUuid
  match attrs.campaign_obj with
  | some c =>
      let c2 := { c with name := attrs.name, group := gg.1 }
      (c2, gg.2, campaignsDb.map fun x => if x.id == c.id then c2 else x)
  | none =>
      let c : CampaignRec :=
        ⟨freshCampaignId, freshCampaignUuid, attrs.name, org, gg.1, true⟩
      (c, gg.2, campaignsDb ++ [c])

/-- The whole Campaign write: per-field semantic validators in field
declaration order (uuid, group_uuid, campaign), the cross-field stage, then
the mutation. -/
def campaignWrite (org : Nat) (campaignsDb : List CampaignRec)
    (groupsDb : List GroupRec) (freshGroupUuid freshCampaignUuid : String)
    (freshCampaignId : Nat) (inp : CampaignWriteAttrs) :
    Except String (CampaignRec × List GroupRec × List CampaignRec) := do
  let a1 ← CampaignWriteSerializer.validate_uuid org campaignsDb inp
  let a2 ← CampaignWriteSerializer.validate_group_uuid org groupsDb a1
  let a3 ← CampaignWriteSerializer.validate_campaign org campaignsDb a2
  let a4 ← CampaignWriteSerializer.validate a3
  return CampaignWriteSerializer.restore_object org groupsDb campaignsDb
    freshGroupUuid freshCampaignUuid freshCampaignId a4

/-! ## Broadcast and Message creates
(`BroadcastCreateSerializer`, `MsgCreateSerializer`) -/

/-- A tenant: id plus anonymous-mode flag. -/
structure Org where
  id : Nat
  isAnon : Bool
  deriving Repr, DecidableEq

/-- A channel row: tenant, active flag, registered country, last-seen
timestamp, and the addressing scheme it sends on. -/
structure ChannelRec where
  id : Nat
  org : Nat
  isActive : Bool
  country : Option String
  lastSeen : Nat
  scheme : String := TEL_SCHEME
  deriving Repr, DecidableEq

/-- Modelled from the spec: `Org.get_send_channel(scheme)` (in `temba.orgs`,
not part of the provided source): one of the tenant's active outbound
channels for the scheme (§4.5). -/
def Org.get_send_channel (orgId : Nat) (channels : List ChannelRec)
    (scheme : String) : Option ChannelRec :=
  (channels.filter fun c => c.org == orgId && c.isActive && c.scheme == scheme).head?

/-- The most recently seen channel of a list (`order_by('-last_seen')` then
the first row), earlier rows winning ties. -/
def latestSeen : List ChannelRec → Option ChannelRec
  | [] => none
  | c :: cs =>
      match latestSeen cs with
      | none => some c
      | some d => if d.lastSeen > c.lastSeen then some d else some c

/-- Map a fallible step over a list, failing at the first error. -/
def mapExcept {α β : Type} (f : α → Except String β) :
    List α → Except String (List β)
  | [] => .ok []
  | x :: rest => do
      let y ← f x
      let ys ← mapExcept f rest
      return y :: ys

/-- Resolution of a list of contact uuids against the tenant's active
contacts, failing on the first miss (shared by several serializers). -/
def resolveContactUuids (org : Nat) (db : List ContactRec) :
    List String → Except String (List ContactRec)
  | [] => .ok []
  | u :: rest =>
      match db.find? (fun c => c.uuid == u && c.org == org && c.isActive) with
      | none => .error ("Unable to find contact with uuid: " ++ u)
      | some c => do
          let cs ← resolveContactUuids org db rest
          return c :: cs

/-- One raw urn of the message/broadcast paths: parse, normalize with the
given country hint, validate (a parse failure surfaces as an error; on the
message path the source lets the underlying ValueError escape, which equally
rejects the request). -/
def msgNormalizeUrn (country : Option String) (urn : String) :
    Except String (String × String) :=
  match ContactURN.parse_urn urn with
  | none => .error ("Unable to parse URN: " ++ urn)
  | some (scheme, path) =>
      let np := ContactURN.normalize_urn scheme path country
      if ContactURN.validate_urn np.1 np.2 then .ok np
      else .error ("Invalid URN: " ++ urn)

/-- `MsgCreateSerializer.validate_channel`: an omitted channel is replaced by
the tenant's most recently seen active channel — the request fails only when
the tenant has no active channel; a channel of another tenant is rejected. -/
def MsgCreateSerializer.validate_channel (org : Org)
    (channelsDb : List ChannelRec) (channel : Option ChannelRec) :
    Except String ChannelRec :=
  let chosen :=
    match channel with
    | some c => some c
    | none => latestSeen (channelsDb.filter fun c => c.isActive && c.org == org.id)
  match chosen with
  | none => .error "There are no channels for this organization."
  | some c =>
      if org.id != c.org then .error "Invalid pk - object does not exist."
      else .ok c

/-- `MsgCreateSerializer.validate_urn`: requires the (possibly defaulted)
channel and normalizes each raw urn with its country. -/
def MsgCreateSerializer.validate_urn (channel : Option ChannelRec)
    (urns : List String) : Except String (List (String × String)) :=
  match channel with
  | some ch => mapExcept (msgNormalizeUrn ch.country) urns
  | none => .error "You must specify a valid channel"

/-- `MsgCreateSerializer.validate_phone`: rejects anonymous tenants outright
(before looking at the numbers), then checks each number against the phone
library using the channel's country. -/
def MsgCreateSerializer.validate_phone (org : Org)
    (channel : Option ChannelRec) (phones : List (String × String)) :
    Except String (List (String × String)) :=
  if org.isAnon then
    .error "Cannot create messages for anonymous organizations"
  else
    match channel with
    | some ch =>
        if phones.all (fun p => (phonenumbersParseE164 p.2 ch.country).isSome) then
          .ok phones
        else .error "Invalid phone number"
    | none => .error "You must specify a valid channel"

/-- The working attribute set of `MsgCreateSerializer` after the per-field
stage. -/
structure MsgCreateAttrs where
  channel : ChannelRec
  text : String
  urn : List (String × String)
  contact : List ContactRec
  phone : List (String × String)
  deriving Repr, DecidableEq

/-- The raw (type-coerced) input of a Message create; `phone` is the output
of the address-or-list field kind. -/
structure MsgCreateInput where
  channel : Option ChannelRec := none
  text : String := ""
  urn : Option (List String) := none
  contact : Option (List String) := none
  phone : Option (List (String × String)) := none
  deriving Repr, DecidableEq

/-- `MsgCreateSerializer.validate`: the cross-field stage — at least one of
urn / phone / contact, and not urns together with phone. -/
def MsgCreateSerializer.validate (attrs : MsgCreateAttrs) :
    Except String MsgCreateAttrs :=
  if (attrs.urn.isEmpty && attrs.phone.isEmpty && attrs.contact.isEmpty) ||
      (!attrs.urn.isEmpty && !attrs.phone.isEmpty) then
    .error "Must provide either urns or phone or contact and not both"
  else .ok attrs

/-- The validation phase of `MsgCreateSerializer`: the per-field semantic
validators in field declaration order (channel, urn, contact, phone — all of
them run, §4.1 stage 2), then the cross-field stage. -/
def msgCreateValidation (org : Org) (channelsDb : List ChannelRec)
    (contactsDb : List ContactRec) (inp : MsgCreateInput) :
    Except String MsgCreateAttrs := do
  let channel ← MsgCreateSerializer.validate_channel org channelsDb inp.channel
  let urn ← MsgCreateSerializer.validate_urn (some channel) (inp.urn.getD [])
  let contact ← resolveContactUuids org.id contactsDb (inp.contact.getD [])
  let phone ←
    MsgCreateSerializer.validate_phone org (some channel) (inp.phone.getD [])
  MsgCreateSerializer.validate
    { channel := channel, text := inp.text, urn := urn, contact := contact,
      phone := phone }

/-- The working attribute set of `BroadcastCreateSerializer` after the
per-field stage. -/
structure BroadcastAttrs where
  urns : List (String × String)
  contacts : List ContactRec
  groups : List GroupRec
  text : String
  channel : Option ChannelRec
  deriving Repr, DecidableEq

/-- The raw (type-coerced) input of a Broadcast create. -/
structure BroadcastInput where
  urns : Option (List String) := none
  contacts : Option (List String) := none
  groups : Option (List String) := none
  text : String := ""
  channel : Option ChannelRec := none
  deriving Repr, DecidableEq

/-- `BroadcastCreateSerializer.validate_urns`: normalize each raw urn with
the country of the tenant's telecom send channel as hint. No anonymity check
is performed on this path. -/
def BroadcastCreateSerializer.validate_urns (orgId : Nat)
    (channelsDb : List ChannelRec) (urns : List String) :
    Except String (List (String × String)) :=
  let country :=
    (Org.get_send_channel orgId channelsDb TEL_SCHEME).bind (fun c => c.country)
  mapExcept (msgNormalizeUrn country) urns

/-- `BroadcastCreateSerializer.validate_channel`: an optional channel must be
active and belong to the tenant. -/
def BroadcastCreateSerializer.validate_channel (org : Org)
    (channel : Option ChannelRec) : Except String (Option ChannelRec) :=
  match channel with
  | none => .ok none
  | some c =>
      if c.isActive && c.org == org.id then .ok (some c)
      else .error "Invalid pk - object does not exist."

/-- `BroadcastCreateSerializer.validate`: the cross-field stage — at least
one recipient category must be non-empty. -/
def BroadcastCreateSerializer.validate (attrs : BroadcastAttrs) :
    Except String BroadcastAttrs :=
  if attrs.urns.isEmpty && attrs.contacts.isEmpty && attrs.groups.isEmpty then
    .error "Must provide either urns, contacts or groups"
  else .ok attrs

/-- A created broadcast: identity, tenant, text, and its recipients rendered
as contact/group identities. -/
structure BroadcastRec where
  id : Nat
  org : Nat
  text : String
  recipients : List String
  deriving Repr, DecidableEq

/-- Modelled from the spec: `Contact.get_or_create` by address (§4.5): if a
supplied address already maps to an active contact of the tenant, that
contact is reused, otherwise a new contact owning the addresses is created
(`freshUuid` is the identity minted for it). -/
def Contact.get_or_create_by_urns (org : Nat) (db : List ContactRec)
    (urns : List (String × String)) (freshUuid : String) :
    ContactRec × List ContactRec :=
  match db.find? (fun c => c.org == org && c.isActive &&
      urns.any (fun u => c.urns.contains (urnString u))) with
  | some c => (c, db)
  | none =>
      let c : ContactRec := ⟨freshUuid, org, true, urns.map urnString⟩
      (c, db ++ [c])

/-- The urn loop of `BroadcastCreateSerializer.restore_object`: each raw
address becomes its own contact via get-or-create; returns the contacts in
order, the contact store after, and the next fresh counter (fresh identities
are minted as "contact-<n>"). -/
def materializeUrnContacts (org : Nat) :
    List (String × String) → List ContactRec → Nat →
      List ContactRec × List ContactRec × Nat
  | [], db, n => ([], db, n)
  | u :: rest, db, n =>
      let pair := Contact.get_or_create_by_urns org db [u] ("contact-" ++ toString n)
      let r := materializeUrnContacts org rest pair.2 (n + 1)
      (pair.1 :: r.1, r.2.1, r.2.2)

/-- `BroadcastCreateSerializer.restore_object`: the recipients are the
resolved contacts and groups plus one contact per raw urn (get-or-create);
creates the broadcast and hands it to the asynchronous sender (fire and
forget, not observed — §5). -/
def BroadcastCreateSerializer.restore_object (org : Org)
    (attrs : BroadcastAttrs) (contactsDb : List ContactRec)
    (broadcasts : List BroadcastRec) (freshBase freshBroadcastId : Nat) :
    BroadcastRec × List ContactRec × List BroadcastRec :=
  let m := materializeUrnContacts org.id attrs.urns contactsDb freshBase
  let recipients :=
    attrs.contacts.map (fun c => c.uuid) ++ attrs.groups.map (fun g => g.uuid) ++
      m.1.map (fun c => c.uuid)
  let b : BroadcastRec := ⟨freshBroadcastId, org.id, attrs.text, recipients⟩
  (b, m.2.1, broadcasts ++ [b])

/-- The validation phase of `BroadcastCreateSerializer` (field declaration
order: urns, contacts, groups, channel), then the cross-field stage. -/
def broadcastValidation (org : Org) (channelsDb : List ChannelRec)
    (contactsDb : List ContactRec) (groupsDb : List GroupRec)
    (inp : BroadcastInput) : Except String BroadcastAttrs := do
  let urns ←
    BroadcastCreateSerializer.validate_urns org.id channelsDb (inp.urns.getD [])
  let contacts ← resolveContactUuids org.id contactsDb (inp.contacts.getD [])
  let groups ← resolveGroupUuids org.id groupsDb (inp.groups.getD [])
  let channel ← BroadcastCreateSerializer.validate_channel org inp.channel
  BroadcastCreateSerializer.validate
    { urns := urns, contacts := contacts, groups := groups, text := inp.text,
      channel := channel }

/-- The whole Broadcast create: validation phase then mutation. -/
def broadcastCreate (org : Org) (channelsDb : List ChannelRec)
    (contactsDb : List ContactRec) (groupsDb : List GroupRec)
    (broadcasts : List BroadcastRec) (freshBase freshBroadcastId : Nat)
    (inp : BroadcastInput) :
    Except String (BroadcastRec × List ContactRec × List BroadcastRec) := do
  let attrs ← broadcastValidation org channelsDb contactsDb groupsDb inp
  return BroadcastCreateSerializer.restore_object org attrs contactsDb
    broadcasts freshBase freshBroadcastId

theorem PhoneArrayField.collectPhones_map_str (xs : List String) :
    PhoneArrayField.collectPhones (xs.map JValue.str) =
      .ok (xs.map fun s => (TEL_SCHEME, s)) := by
  induction xs with
  | nil => rfl
  | cons x xs ih => simp [PhoneArrayField.collectPhones, ih, Except.bind]

theorem PhoneArrayField.collectPhones_err_of_nonstr (xs : List JValue)
    (h : ∃ v ∈ xs, v.isStr = false) :
    ∃ e, PhoneArrayField.collectPhones xs = .error e := by
  induction xs with
  | nil => simp at h
  | cons x xs ih =>
      obtain ⟨v, hv, hvs⟩ := h
      rcases List.mem_cons.mp hv with rfl | hmem
      · cases v with
        | str s => simp [JValue.isStr] at hvs
        | int n => exact ⟨_, rfl⟩
        | bool b => exact ⟨_, rfl⟩
        | arr ys => exact ⟨_, rfl⟩
        | obj kvs => exact ⟨_, rfl⟩
        | null => exact ⟨_, rfl⟩
      · cases x with
        | str s =>
            obtain ⟨e, he⟩ := ih ⟨v, hmem, hvs⟩
            refine ⟨e, ?_⟩
            simp [PhoneArrayField.collectPhones, he, Except.bind]
        | int n => exact ⟨_, rfl⟩
        | bool b => exact ⟨_, rfl⟩
        | arr ys => exact ⟨_, rfl⟩
        | obj kvs => exact ⟨_, rfl⟩
        | null => exact ⟨_, rfl⟩

/-- C8: the address-or-list field kind (`PhoneArrayField.from_native`)
normalizes a single string to a one-element list of (tel, path) pairs, a list
of at most 100 strings to the corresponding pair list, and rejects lists over
100 entries, lists containing a non-string element, and inputs that are
neither a string nor a list. -/
theorem C8_phone_array_field_spec :
    (∀ s : String,
        PhoneArrayField.from_native (.str s) = .ok [(TEL_SCHEME, s)]) ∧
    (∀ xs : List String, xs.length ≤ 100 →
        PhoneArrayField.from_native (.arr (xs.map JValue.str)) =
          .ok (xs.map fun s => (TEL_SCHEME, s))) ∧
    (∀ xs : List JValue, xs.length > 100 →
        ∃ e, PhoneArrayField.from_native (.arr xs) = .error e) ∧
    (∀ xs : List JValue, (∃ v ∈ xs, v.isStr = false) →
        ∃ e, PhoneArrayField.from_native (.arr xs) = .error e) ∧
    (∀ v : JValue, v.isStr = false → (∀ xs, v ≠ .arr xs) →
        ∃ e, PhoneArrayField.from_native v = .error e) := by
  refine ⟨fun s => rfl, fun xs h => ?_, fun xs h => ?_, fun xs h => ?_, fun v h1 h2 => ?_⟩
  · have hlen : ¬ ((xs.map JValue.str).length > 100) := by
      simpa using Nat.not_lt.mpr h
    simp only [PhoneArrayField.from_native]
    rw [if_neg hlen]
    exact PhoneArrayField.collectPhones_map_str xs
  · exact ⟨"You can only specify up to 100 numbers at a time.",
      by simp [PhoneArrayField.from_native, h]⟩
  · by_cases hlen : xs.length > 100
    · exact ⟨"You can only specify up to 100 numbers at a time.",
        by simp [PhoneArrayField.from_native, hlen]⟩
    · obtain ⟨e, he⟩ := PhoneArrayField.collectPhones_err_of_nonstr xs h
      exact ⟨e, by simp [PhoneArrayField.from_native, hlen, he]⟩
  · cases v with
    | str s => simp [JValue.isStr] at h1
    | int n => exact ⟨_, rfl⟩
    | bool b => exact ⟨_, rfl⟩
    | arr ys => exact absurd rfl (h2 ys)
    | obj kvs => exact ⟨_, rfl⟩
    | null => exact ⟨_, rfl⟩

/-- Witness for C8 at concrete inputs: a single string, a two-element string
list, an over-long list, a list with a non-string element, and an integer
input. -/
theorem C8_phone_array_field_spec_witness :
    PhoneArrayField.from_native (.str "+250788123123") =
      .ok [(TEL_SCHEME, "+250788123123")] ∧
    PhoneArrayField.from_native (.arr [.str "+250788123123", .str "+250788123124"]) =
      .ok [(TEL_SCHEME, "+250788123123"), (TEL_SCHEME, "+250788123124")] ∧
    (∃ e, PhoneArrayField.from_native (.arr (List.replicate 101 (.str "x"))) = .error e) ∧
    (∃ e, PhoneArrayField.from_native (.arr [.str "ok", .int 7]) = .error e) ∧
    (∃ e, PhoneArrayField.from_native (.int 3) = .error e) := by
  refine ⟨C8_phone_array_field_spec.1 "+250788123123", ?_, ?_, ?_, ?_⟩
  · have := C8_phone_array_field_spec.2.1 ["+250788123123", "+250788123124"] (by decide)
    simpa using this
  · exact C8_phone_array_field_spec.2.2.1 _ (by simp)
  · exact C8_phone_array_field_spec.2.2.2.1 _ ⟨.int 7, by simp, rfl⟩
  · exact C8_phone_array_field_spec.2.2.2.2 (.int 3) rfl (fun xs h => by cases h)

/-- Claim C6: a write whose body is not a single key-value mapping reports a
structural error under the global sentinel key "non_field_errors"; no
per-field, cross-field, or mutation stage runs (the outcome does not depend on
any of them) and the store is unchanged. -/
theorem C6_non_object_body_structural_error {α σ ρ : Type}
    (restoreFields : List (String × JValue) → Except String α)
    (performValidation : α → Except String α)
    (restoreObject : α → σ → σ × ρ)
    (data : JValue) (st : σ) (h : data.isObj = false) :
    runWritePipeline restoreFields performValidation restoreObject data st =
      .structuralError st "non_field_errors"
        ["Request body should be a single JSON object"] := by
  cases data with
  | obj kvs => simp [JValue.isObj] at h
  | str s => rfl
  | int n => rfl
  | bool b => rfl
  | arr xs => rfl
  | null => rfl

/-- Witness for C6: a JSON array body, run against a pipeline whose mutation
stage would increment a counter, leaves the counter unchanged and reports the
structural error. -/
theorem C6_non_object_body_structural_error_witness :
    (JValue.arr []).isObj = false ∧
    runWritePipeline (fun kvs => Except.ok kvs) (fun a => Except.ok a)
        (fun a (s : Nat) => (s + 1, a)) (JValue.arr []) 0 =
      .structuralError 0 "non_field_errors"
        ["Request body should be a single JSON object"] :=
  ⟨rfl, C6_non_object_body_structural_error _ _ _ _ _ rfl⟩

/-- Claim C10: a bulk message action affects exactly the messages of the
caller's tenant with incoming direction among the requested ids: every other
stored message is unchanged, each matched message undergoes the action's
transition, requested ids that match no stored message (nonexistent, outgoing,
or other-tenant ids add nothing) change nothing, and the operation always
produces a result (no error is possible). -/
theorem C10_bulk_action_tenant_incoming_scope (org : Nat) (action : String)
    (label : Option String) (msg_ids : List Nat) (db : List MsgRec) :
    ((MsgBulkActionSerializer.restore_object org action label msg_ids db).length
        = db.length) ∧
    (∀ (i : Nat) (h : i < db.length),
      (MsgBulkActionSerializer.restore_object org action label msg_ids db).get
          ⟨i, by simpa [MsgBulkActionSerializer.restore_object] using h⟩ =
        (if msgMatchesBulkFilter org msg_ids (db.get ⟨i, h⟩) then
          applyMsgAction action label (db.get ⟨i, h⟩)
        else db.get ⟨i, h⟩)) ∧
    (∀ extra : List Nat, (∀ m ∈ db, m.id ∉ extra) →
      MsgBulkActionSerializer.restore_object org action label (msg_ids ++ extra) db =
        MsgBulkActionSerializer.restore_object org action label msg_ids db) := by
  refine ⟨by simp [MsgBulkActionSerializer.restore_object], fun i h => ?_, fun extra hextra => ?_⟩
  · simp [MsgBulkActionSerializer.restore_object]
  · unfold MsgBulkActionSerializer.restore_object
    apply List.map_congr_left
    intro m hm
    have hne : m.id ∉ extra := hextra m hm
    simp [msgMatchesBulkFilter, hne]

/-- Witness for C10 at a concrete store: two tenants, an incoming and an
outgoing message, ids including a nonexistent one; only the incoming message
of the caller's tenant is archived. -/
theorem C10_bulk_action_tenant_incoming_scope_witness :
    MsgBulkActionSerializer.restore_object 1 "archive" none [10, 11, 12, 99]
        [⟨10, 1, INCOMING, VISIBLE, []⟩, ⟨11, 1, OUTGOING, VISIBLE, []⟩,
         ⟨12, 2, INCOMING, VISIBLE, []⟩] =
      [⟨10, 1, INCOMING, ARCHIVED, []⟩, ⟨11, 1, OUTGOING, VISIBLE, []⟩,
       ⟨12, 2, INCOMING, VISIBLE, []⟩] ∧
    MsgBulkActionSerializer.restore_object 1 "archive" none [10, 11, 12, 99]
        [⟨10, 1, INCOMING, VISIBLE, []⟩, ⟨11, 1, OUTGOING, VISIBLE, []⟩,
         ⟨12, 2, INCOMING, VISIBLE, []⟩] =
      MsgBulkActionSerializer.restore_object 1 "archive" none [10, 11, 12]
        [⟨10, 1, INCOMING, VISIBLE, []⟩, ⟨11, 1, OUTGOING, VISIBLE, []⟩,
         ⟨12, 2, INCOMING, VISIBLE, []⟩] := by
  constructor
  · rfl
  · exact (C10_bulk_action_tenant_incoming_scope 1 "archive" none [10, 11, 12]
      [⟨10, 1, INCOMING, VISIBLE, []⟩, ⟨11, 1, OUTGOING, VISIBLE, []⟩,
       ⟨12, 2, INCOMING, VISIBLE, []⟩]).2.2 [99] (by decide)

/-- Counterexample to C3: tenant 1 starts a flow whose UUID belongs to an
archived flow of tenant 2. The outcome is the archived-flow error, not the
not-found error — the archived check runs before the tenant check, so the
existence of another tenant's flow is confirmed; and a nonexistent UUID does
not even produce a validation error (it raises an uncaught lookup exception). -/
theorem C3_cross_tenant_archived_counterexample :
    FlowRunStartSerializer.validate_flow_uuid 1
        [⟨7, "f1", 2, "other-tenant flow", true, true, none⟩] "f1" =
      .archivedError ∧
    FlowStartLookup.archivedError ≠ .notFoundError "f1" ∧
    FlowRunStartSerializer.validate_flow_uuid 1
        [⟨7, "f1", 2, "other-tenant flow", true, true, none⟩] "missing" =
      .flowDoesNotExist := by
  exact ⟨rfl, by decide, rfl⟩

/-- Claim C3 as amended: only a cross-tenant *non-archived* flow is reported
with the same not-found message; the archived check precedes the tenant check,
so a cross-tenant archived flow is reported as archived (confirming its
existence), and a UUID matching no flow at all raises an uncaught lookup
exception instead of the not-found validation error. -/
theorem C3_flow_uuid_resolution_amended (org : Nat) (db : List FlowRec)
    (flow_uuid : String) :
    (db.find? (fun f => f.uuid == flow_uuid) = none →
      FlowRunStartSerializer.validate_flow_uuid org db flow_uuid = .flowDoesNotExist) ∧
    (∀ f, db.find? (fun f => f.uuid == flow_uuid) = some f → f.isArchived = true →
      FlowRunStartSerializer.validate_flow_uuid org db flow_uuid = .archivedError) ∧
    (∀ f, db.find? (fun f => f.uuid == flow_uuid) = some f → f.isArchived = false →
      org ≠ f.org →
      FlowRunStartSerializer.validate_flow_uuid org db flow_uuid = .notFoundError f.uuid) ∧
    (∀ f, db.find? (fun f => f.uuid == flow_uuid) = some f → f.isArchived = false →
      org = f.org →
      FlowRunStartSerializer.validate_flow_uuid org db flow_uuid = .resolved f) := by
  refine ⟨fun h => ?_, fun f h ha => ?_, fun f h ha ho => ?_, fun f h ha ho => ?_⟩
  · simp [FlowRunStartSerializer.validate_flow_uuid, h]
  · simp [FlowRunStartSerializer.validate_flow_uuid, h, ha]
  · simp [FlowRunStartSerializer.validate_flow_uuid, h, ha, ho]
  · simp [FlowRunStartSerializer.validate_flow_uuid, h, ha, ho]

/-- Witness for the amended C3 at concrete stores: the four outcomes at
explicit inputs (missing uuid, cross-tenant archived, cross-tenant active,
same-tenant active). -/
theorem C3_flow_uuid_resolution_amended_witness :
    FlowRunStartSerializer.validate_flow_uuid 1 [] "f0" = .flowDoesNotExist ∧
    FlowRunStartSerializer.validate_flow_uuid 1
        [⟨7, "f1", 2, "a", true, true, none⟩] "f1" = .archivedError ∧
    FlowRunStartSerializer.validate_flow_uuid 1
        [⟨8, "f2", 2, "b", true, false, none⟩] "f2" = .notFoundError "f2" ∧
    FlowRunStartSerializer.validate_flow_uuid 1
        [⟨9, "f3", 1, "c", true, false, none⟩] "f3" =
      .resolved ⟨9, "f3", 1, "c", true, false, none⟩ := by
  refine ⟨(C3_flow_uuid_resolution_amended 1 [] "f0").1 (by decide), ?_, ?_, ?_⟩
  · exact (C3_flow_uuid_resolution_amended 1
      [⟨7, "f1", 2, "a", true, true, none⟩] "f1").2.1
      ⟨7, "f1", 2, "a", true, true, none⟩ (by decide) rfl
  · exact (C3_flow_uuid_resolution_amended 1
      [⟨8, "f2", 2, "b", true, false, none⟩] "f2").2.2.1
      ⟨8, "f2", 2, "b", true, false, none⟩ (by decide) rfl (by decide)
  · exact (C3_flow_uuid_resolution_amended 1
      [⟨9, "f3", 1, "c", true, false, none⟩] "f3").2.2.2
      ⟨9, "f3", 1, "c", true, false, none⟩ (by decide) rfl rfl

/-- Claim C5: the event write cross-field stage rejects inputs supplying both
an inline message and a resolved flow, rejects inputs supplying neither, and
any attribute set it accepts carries exactly one of the two — so an event is
only ever written with exactly one. -/
theorem C5_event_message_xor_flow (attrs : CampaignEventAttrs) :
    (truthyStr attrs.message = true → attrs.flow_obj.isSome = true →
      CampaignEventWriteSerializer.validate attrs =
        .error "Events cannot have both a message and a flow") ∧
    (truthyStr attrs.message = false → attrs.flow_obj = none →
      CampaignEventWriteSerializer.validate attrs =
        .error "Must specify either a flow or a message for the event") ∧
    (∀ out, CampaignEventWriteSerializer.validate attrs = .ok out →
      out = attrs ∧ (truthyStr out.message = true ↔ out.flow_obj = none)) := by
  refine ⟨fun hm hf => ?_, fun hm hf => ?_, fun out hok => ?_⟩
  · simp [CampaignEventWriteSerializer.validate, hm, hf]
  · simp [CampaignEventWriteSerializer.validate, hm, hf]
  · unfold CampaignEventWriteSerializer.validate at hok
    split_ifs at hok with h1 h2 h3
    simp at hok
    subst hok
    simp at h1 h2
    refine ⟨rfl, ?_⟩
    constructor
    · intro hm
      cases hfo : attrs.flow_obj with
      | none => rfl
      | some f =>
          exfalso
          rw [hfo] at h2
          simp [hm] at h2
    · intro hfo
      rcases Bool.eq_false_or_eq_true (truthyStr attrs.message) with h | h
      · exact h
      · exact absurd hfo (h1 h)

/-- Witness for C5 at concrete attribute sets: both supplied is rejected,
neither supplied is rejected, and exactly-one is accepted with the exclusivity
holding on the accepted set. -/
theorem C5_event_message_xor_flow_witness :
    CampaignEventWriteSerializer.validate
        { message := some "hi",
          flow_obj := some ⟨3, "fu", 1, "f", true, false, none⟩ } =
      .error "Events cannot have both a message and a flow" ∧
    CampaignEventWriteSerializer.validate {} =
      .error "Must specify either a flow or a message for the event" ∧
    ({ message := some "hi" : CampaignEventAttrs} =
        { message := some "hi" : CampaignEventAttrs} ∧
      (truthyStr ({ message := some "hi" : CampaignEventAttrs}).message = true ↔
        ({ message := some "hi" : CampaignEventAttrs}).flow_obj = none)) := by
  refine ⟨?_, ?_, ?_⟩
  · exact (C5_event_message_xor_flow _).1 rfl rfl
  · exact (C5_event_message_xor_flow _).2.1 rfl rfl
  · exact (C5_event_message_xor_flow { message := some "hi" }).2.2 _ rfl

/-- Claim C4: updating an existing campaign event preserves its identity
(uuid) in every branch; switching to a flow reference sets the flow-event type,
clears the message and replaces the hidden flow with the referenced one;
switching a non-message event to the message branch creates a fresh hidden
single-message flow carrying the supplied text; updating a message-branch
event updates the existing hidden flow's text in place; and in every branch
the backing flow's display name is recomputed from the event's final
configuration. -/
theorem C4_event_update_branch_switch (org : Nat) (freshFlowId : Nat)
    (freshFlowUuid freshEventUuid : String) (attrs : CampaignEventAttrs)
    (ev : EventRec) (hev : attrs.event_obj = some ev) :
    (∀ f, attrs.flow_obj = some f →
      (CampaignEventWriteSerializer.restore_object org freshFlowId freshFlowUuid
          freshEventUuid attrs).uuid = ev.uuid ∧
      (CampaignEventWriteSerializer.restore_object org freshFlowId freshFlowUuid
          freshEventUuid attrs).eventType = FLOW_EVENT ∧
      (CampaignEventWriteSerializer.restore_object org freshFlowId freshFlowUuid
          freshEventUuid attrs).message = none ∧
      (CampaignEventWriteSerializer.restore_object org freshFlowId freshFlowUuid
          freshEventUuid attrs).flow.id = f.id ∧
      (CampaignEventWriteSerializer.restore_object org freshFlowId freshFlowUuid
          freshEventUuid attrs).flow.uuid = f.uuid) ∧
    (attrs.flow_obj = none → ev.eventType ≠ MESSAGE_EVENT →
      (CampaignEventWriteSerializer.restore_object org freshFlowId freshFlowUuid
          freshEventUuid attrs).uuid = ev.uuid ∧
      (CampaignEventWriteSerializer.restore_object org freshFlowId freshFlowUuid
          freshEventUuid attrs).eventType = MESSAGE_EVENT ∧
      (CampaignEventWriteSerializer.restore_object org freshFlowId freshFlowUuid
          freshEventUuid attrs).message = attrs.message ∧
      (CampaignEventWriteSerializer.restore_object org freshFlowId freshFlowUuid
          freshEventUuid attrs).flow.id = freshFlowId ∧
      (CampaignEventWriteSerializer.restore_object org freshFlowId freshFlowUuid
          freshEventUuid attrs).flow.singleMessageText = attrs.message) ∧
    (∀ m, attrs.flow_obj = none → ev.eventType = MESSAGE_EVENT →
      attrs.message = some m →
      (CampaignEventWriteSerializer.restore_object org freshFlowId freshFlowUuid
          freshEventUuid attrs).uuid = ev.uuid ∧
      (CampaignEventWriteSerializer.restore_object org freshFlowId freshFlowUuid
          freshEventUuid attrs).eventType = MESSAGE_EVENT ∧
      (CampaignEventWriteSerializer.restore_object org freshFlowId freshFlowUuid
          freshEventUuid attrs).flow.id = ev.flow.id ∧
      (CampaignEventWriteSerializer.restore_object org freshFlowId freshFlowUuid
          freshEventUuid attrs).flow.uuid = ev.flow.uuid ∧
      (CampaignEventWriteSerializer.restore_object org freshFlowId freshFlowUuid
          freshEventUuid attrs).flow.singleMessageText = some m) ∧
    ((CampaignEventWriteSerializer.restore_object org freshFlowId freshFlowUuid
        freshEventUuid attrs).flow.name =
      derivedFlowName
        (CampaignEventWriteSerializer.restore_object org freshFlowId freshFlowUuid
          freshEventUuid attrs).relativeTo
        (CampaignEventWriteSerializer.restore_object org freshFlowId freshFlowUuid
          freshEventUuid attrs).offset
        (CampaignEventWriteSerializer.restore_object org freshFlowId freshFlowUuid
          freshEventUuid attrs).unit) := by
  refine ⟨fun f hf => ?_, fun hf ht => ?_, fun m hf ht hm => ?_, ?_⟩
  · simp [CampaignEventWriteSerializer.restore_object, hev, hf,
      CampaignEvent.update_flow_name]
  · have ht2 : (ev.eventType != MESSAGE_EVENT) = true := by
      simpa using ht
    simp [CampaignEventWriteSerializer.restore_object, hev, hf, ht2,
      CampaignEvent.update_flow_name, Flow.create_single_message]
  · have ht2 : (ev.eventType != MESSAGE_EVENT) = false := by
      simpa using ht
    simp [CampaignEventWriteSerializer.restore_object, hev, hf, ht2, ht, hm,
      CampaignEvent.update_flow_name, Flow.update_single_message_flow]
  · cases hf : attrs.flow_obj with
    | some f =>
        simp [CampaignEventWriteSerializer.restore_object, hev, hf,
          CampaignEvent.update_flow_name]
    | none =>
        cases ht2 : (ev.eventType != MESSAGE_EVENT) with
        | true =>
            simp [CampaignEventWriteSerializer.restore_object, hev, hf, ht2,
              CampaignEvent.update_flow_name, Flow.create_single_message]
        | false =>
            simp [CampaignEventWriteSerializer.restore_object, hev, hf, ht2,
              CampaignEvent.update_flow_name, Flow.update_single_message_flow]

/-- Counterexample to C1: a Contact write supplying BOTH a uuid and a urns
list — two of the three identity fields — passes the whole validation phase
(this is the update path), instead of being rejected as a cross-field error. -/
theorem C1_uuid_plus_urns_accepted_counterexample :
    truthyStr ({ uuid := some "u1", urns := some ["tel:+250788000002"] : ContactInput}).uuid = true ∧
    truthyList ({ uuid := some "u1", urns := some ["tel:+250788000002"] : ContactInput}).urns = true ∧
    contactValidation 1 [⟨"u1", 1, true, ["tel:+250788000001"]⟩] [] [] []
        { uuid := some "u1", urns := some ["tel:+250788000002"] } =
      .ok { uuid := some "u1", urns := some [(TEL_SCHEME, "+250788000002")] } := by
  refine ⟨rfl, rfl, ?_⟩
  rfl

/-- Claim C1 as amended: the cross-field stage rejects supplying none of
{urns, phone, uuid} and rejects urns together with phone; but a uuid combined
with urns or with phone is accepted (the update path) whenever the supplied
addresses are not already used by a different contact of the tenant — the
only further cross-field rejections are the groups/group_uuids alias conflict
and that address-conflict check. -/
theorem C1_contact_identity_cross_field_amended (org : Nat)
    (db : List ContactRec) (attrs : ContactAttrs) :
    (contactExclusiveErr attrs = true →
      ContactWriteSerializer.validate org db attrs =
        .error "Must provide either urns, phone or uuid but only one of each") ∧
    (contactExclusiveErr attrs = false →
      (truthyList attrs.group_uuids && truthyList attrs.groups) = false →
      conflictingContacts org db (attrs.uuid.getD "") (contactCheckUrns attrs) = [] →
      ContactWriteSerializer.validate org db attrs = .ok attrs) := by
  refine ⟨fun h => ?_, fun h1 h2 h3 => ?_⟩
  · simp [ContactWriteSerializer.validate, h]
  · simp only [ContactWriteSerializer.validate, h1, h2, h3]
    split_ifs <;> simp_all

/-- Witness for the amended C1: no identity field at all is rejected, while
uuid together with phone is accepted against an empty contact store. -/
theorem C1_contact_identity_cross_field_amended_witness :
    ContactWriteSerializer.validate 1 [] {} =
      .error "Must provide either urns, phone or uuid but only one of each" ∧
    ContactWriteSerializer.validate 1 []
        { uuid := some "u1", phone := some "+250788000002" } =
      .ok { uuid := some "u1", phone := some "+250788000002" } := by
  constructor
  · exact (C1_contact_identity_cross_field_amended 1 [] {}).1 rfl
  · exact (C1_contact_identity_cross_field_amended 1 []
      { uuid := some "u1", phone := some "+250788000002" }).2 rfl rfl rfl

/-- `Except` bind on an error short-circuits. -/
theorem exceptBindError {α β : Type} (e : String) (f : α → Except String β) :
    ((Except.error e : Except String α) >>= f) = Except.error e := rfl

/-- `Except` bind on a success applies the continuation. -/
theorem exceptBindOk {α β : Type} (a : α) (f : α → Except String β) :
    ((Except.ok a : Except String α) >>= f) = f a := rfl

/-- Counterexample to C2: a Campaign write with BOTH the legacy group name
and `group_uuid` present is not rejected — it succeeds, silently using the
UUID-resolved group; the supplied name is ignored and no group is created
from it (the group store is unchanged). -/
theorem C2_group_and_group_uuid_counterexample :
    truthyStr ({ name := "Camp", group_uuid := some "g-uuid", group := some "OtherName" : CampaignWriteAttrs}).group = true ∧
    truthyStr ({ name := "Camp", group_uuid := some "g-uuid", group := some "OtherName" : CampaignWriteAttrs}).group_uuid = true ∧
    campaignWrite 1 [] [⟨"g-uuid", "GroupA", 1, true⟩] "fresh-g" "camp-u" 100
        { name := "Camp", group_uuid := some "g-uuid", group := some "OtherName" } =
      .ok (⟨100, "camp-u", "Camp", 1, ⟨"g-uuid", "GroupA", 1, true⟩, true⟩,
        [⟨"g-uuid", "GroupA", 1, true⟩],
        [⟨100, "camp-u", "Camp", 1, ⟨"g-uuid", "GroupA", 1, true⟩, true⟩]) := by
  exact ⟨rfl, rfl, rfl⟩

/-- Claim C2 as amended: when both the legacy group name and `group_uuid` are
present, the request is NOT rejected — cross-field validation passes whenever
a group uuid is given (the only ambiguity rejection is the legacy campaign id
together with the uuid), and the mutation silently uses the UUID-resolved
group, ignoring the name entirely (the group store is unchanged). -/
theorem C2_campaign_group_alias_amended (org : Nat)
    (groupsDb : List GroupRec) (campaignsDb : List CampaignRec)
    (fgu fcu : String) (fcid : Nat) (attrs : CampaignWriteAttrs) :
    (truthyStr attrs.group_uuid = true →
      (truthyNat attrs.campaign && truthyStr attrs.uuid) = false →
      CampaignWriteSerializer.validate attrs = .ok attrs) ∧
    (∀ g, attrs.group_obj = some g →
      (CampaignWriteSerializer.restore_object org groupsDb campaignsDb
          fgu fcu fcid attrs).1.group = g ∧
      (CampaignWriteSerializer.restore_object org groupsDb campaignsDb
          fgu fcu fcid attrs).2.1 = groupsDb) ∧
    ((truthyStr attrs.group || truthyStr attrs.group_uuid) = true →
      (truthyNat attrs.campaign && truthyStr attrs.uuid) = true →
      CampaignWriteSerializer.validate attrs =
        .error "Cannot specify both campaign and uuid") := by
  refine ⟨fun h1 h2 => ?_, fun g hg => ?_, fun h0 h => ?_⟩
  · simp [CampaignWriteSerializer.validate, h1, h2]
  · cases hc : attrs.campaign_obj with
    | some c =>
        constructor
        · simp [CampaignWriteSerializer.restore_object, hg, hc]
        · simp [CampaignWriteSerializer.restore_object, hg, hc]
    | none =>
        constructor
        · simp [CampaignWriteSerializer.restore_object, hg, hc]
        · simp [CampaignWriteSerializer.restore_object, hg, hc]
  · have hfirst : (!truthyStr attrs.group && !truthyStr attrs.group_uuid) = false := by
      rcases Bool.or_eq_true_iff.mp h0 with hg | hg <;> simp [hg]
    simp [CampaignWriteSerializer.validate, hfirst, h]

/-- Witness for the amended C2 at concrete inputs: validation passes with
both group fields present, the mutation uses the uuid-resolved group leaving
the group store untouched, and the campaign/uuid pair is rejected. -/
theorem C2_campaign_group_alias_amended_witness :
    CampaignWriteSerializer.validate
        { name := "C", group_uuid := some "g1", group := some "Name" } =
      .ok { name := "C", group_uuid := some "g1", group := some "Name" } ∧
    ((CampaignWriteSerializer.restore_object 1 [⟨"g1", "A", 1, true⟩] [] "f" "u" 9
        { name := "C", group := some "Name", group_obj := some ⟨"g1", "A", 1, true⟩ }).1.group
      = ⟨"g1", "A", 1, true⟩ ∧
     (CampaignWriteSerializer.restore_object 1 [⟨"g1", "A", 1, true⟩] [] "f" "u" 9
        { name := "C", group := some "Name", group_obj := some ⟨"g1", "A", 1, true⟩ }).2.1
      = [⟨"g1", "A", 1, true⟩]) ∧
    CampaignWriteSerializer.validate
        { uuid := some "u1", name := "C", group := some "Name", campaign := some 4 } =
      .error "Cannot specify both campaign and uuid" := by
  refine ⟨?_, ?_, ?_⟩
  · exact (C2_campaign_group_alias_amended 1 [] [] "f" "u" 9
      { name := "C", group_uuid := some "g1", group := some "Name" }).1 rfl rfl
  · exact (C2_campaign_group_alias_amended 1 [⟨"g1", "A", 1, true⟩] [] "f" "u" 9
      { name := "C", group := some "Name",
        group_obj := some ⟨"g1", "A", 1, true⟩ }).2.1 ⟨"g1", "A", 1, true⟩ rfl
  · exact (C2_campaign_group_alias_amended 1 [] [] "f" "u" 9
      { uuid := some "u1", name := "C", group := some "Name",
        campaign := some 4 }).2.2 rfl rfl

/-- Counterexample to C9: a Message create omitting the channel is accepted
when the tenant has an active channel — the most recently seen active channel
is silently substituted, both at the channel validator and through the whole
validation phase. -/
theorem C9_omitted_channel_defaulted_counterexample :
    MsgCreateSerializer.validate_channel ⟨1, false⟩
        [⟨5, 1, true, some "RW", 10, TEL_SCHEME⟩] none =
      .ok ⟨5, 1, true, some "RW", 10, TEL_SCHEME⟩ ∧
    msgCreateValidation ⟨1, false⟩ [⟨5, 1, true, some "RW", 10, TEL_SCHEME⟩]
        [⟨"c1", 1, true, ["tel:+250788000001"]⟩]
        { text := "hi", contact := some ["c1"] } =
      .ok { channel := ⟨5, 1, true, some "RW", 10, TEL_SCHEME⟩, text := "hi",
            urn := [], contact := [⟨"c1", 1, true, ["tel:+250788000001"]⟩],
            phone := [] } := by
  exact ⟨rfl, rfl⟩

/-- `latestSeen` only returns channels of its list. -/
theorem latestSeen_mem : ∀ (l : List ChannelRec) (c : ChannelRec),
    latestSeen l = some c → c ∈ l
  | [], c, h => by simp [latestSeen] at h
  | x :: xs, c, h => by
      unfold latestSeen at h
      cases hx : latestSeen xs with
      | none =>
          rw [hx] at h
          simp at h
          subst h
          exact List.mem_cons_self x xs
      | some d =>
          rw [hx] at h
          simp only [] at h
          by_cases hgt : d.lastSeen > x.lastSeen
          · rw [if_pos hgt] at h
            injection h with h
            subst h
            exact List.mem_cons_of_mem x (latestSeen_mem xs _ hx)
          · rw [if_neg hgt] at h
            injection h with h
            subst h
            exact List.mem_cons_self x xs

/-- Claim C9 as amended: the channel field is NOT required — an omitted
channel is replaced by the tenant's most recently seen active channel, the
request failing only when the tenant has no active channel; a supplied
channel of another tenant is rejected. -/
theorem C9_channel_defaulting_amended (org : Org)
    (channelsDb : List ChannelRec) :
    (latestSeen (channelsDb.filter fun c => c.isActive && c.org == org.id) = none →
      MsgCreateSerializer.validate_channel org channelsDb none =
        .error "There are no channels for this organization.") ∧
    (∀ ch, latestSeen (channelsDb.filter fun c => c.isActive && c.org == org.id) = some ch →
      MsgCreateSerializer.validate_channel org channelsDb none = .ok ch) ∧
    (∀ ch : ChannelRec, ch.org ≠ org.id →
      MsgCreateSerializer.validate_channel org channelsDb (some ch) =
        .error "Invalid pk - object does not exist.") := by
  refine ⟨fun h => ?_, fun ch h => ?_, fun ch h => ?_⟩
  · simp [MsgCreateSerializer.validate_channel, h]
  · have hmem := latestSeen_mem _ ch h
    have : ch.isActive && ch.org == org.id := (List.mem_filter.mp hmem).2
    have horg : ch.org = org.id := by
      rcases Bool.and_eq_true_iff.mp this with ⟨_, h2⟩
      exact Nat.beq_eq_true_eq ch.org org.id ▸ h2
    simp [MsgCreateSerializer.validate_channel, h, horg]
  · simp [MsgCreateSerializer.validate_channel]
    exact fun hh => h hh.symm

/-- Witness for the amended C9 at concrete stores: no active channel fails,
an existing channel is defaulted in, a foreign channel is rejected. -/
theorem C9_channel_defaulting_amended_witness :
    MsgCreateSerializer.validate_channel ⟨1, false⟩ [] none =
      .error "There are no channels for this organization." ∧
    MsgCreateSerializer.validate_channel ⟨1, false⟩
        [⟨5, 1, true, some "RW", 10, TEL_SCHEME⟩] none =
      .ok ⟨5, 1, true, some "RW", 10, TEL_SCHEME⟩ ∧
    MsgCreateSerializer.validate_channel ⟨1, false⟩ []
        (some ⟨6, 2, true, none, 3, TEL_SCHEME⟩) =
      .error "Invalid pk - object does not exist." := by
  refine ⟨?_, ?_, ?_⟩
  · exact (C9_channel_defaulting_amended ⟨1, false⟩ []).1 rfl
  · exact (C9_channel_defaulting_amended ⟨1, false⟩
      [⟨5, 1, true, some "RW", 10, TEL_SCHEME⟩]).2.1
      ⟨5, 1, true, some "RW", 10, TEL_SCHEME⟩ rfl
  · exact (C9_channel_defaulting_amended ⟨1, false⟩ []).2.2
      ⟨6, 2, true, none, 3, TEL_SCHEME⟩ (by decide)

/-- Counterexample to C7: under an ANONYMOUS tenant, a Broadcast create whose
recipients are given as raw addresses (urns) is not rejected: it passes
validation and creates a Broadcast and a Contact. -/
theorem C7_anon_broadcast_urns_counterexample :
    (Org.mk 1 true).isAnon = true ∧
    broadcastCreate ⟨1, true⟩ [⟨5, 1, true, some "RW", 10, TEL_SCHEME⟩] [] [] [] 0 50
        { urns := some ["tel:+250788123123"], text := "hello" } =
      .ok (⟨50, 1, "hello", ["contact-0"]⟩,
        [⟨"contact-0", 1, true, ["tel:+250788123123"]⟩],
        [⟨50, 1, "hello", ["contact-0"]⟩]) := by
  exact ⟨rfl, rfl⟩

/-- Claim C7 as amended: a Message create under an anonymous tenant is always
rejected (the phone validator rejects anonymous tenants outright, so raw
addresses never create anything on that path), but a Broadcast create
performs no anonymity check at all: its outcome is identical for an anonymous
and a non-anonymous tenant with the same id, so raw-address recipients are
accepted there. -/
theorem C7_anonymous_raw_address_amended (i : Nat)
    (channelsDb : List ChannelRec) (contactsDb : List ContactRec)
    (groupsDb : List GroupRec) (broadcasts : List BroadcastRec)
    (freshBase freshId : Nat) (binp : BroadcastInput) (minp : MsgCreateInput) :
    (∃ e, msgCreateValidation ⟨i, true⟩ channelsDb contactsDb minp = .error e) ∧
    broadcastCreate ⟨i, true⟩ channelsDb contactsDb groupsDb broadcasts
        freshBase freshId binp =
      broadcastCreate ⟨i, false⟩ channelsDb contactsDb groupsDb broadcasts
        freshBase freshId binp := by
  constructor
  · unfold msgCreateValidation
    cases h1 : MsgCreateSerializer.validate_channel ⟨i, true⟩ channelsDb minp.channel with
    | error e => exact ⟨e, by simp only [exceptBindError]⟩
    | ok ch =>
        cases h2 : MsgCreateSerializer.validate_urn (some ch) (minp.urn.getD []) with
        | error e => exact ⟨e, by simp only [exceptBindOk, h2, exceptBindError]⟩
        | ok urns =>
            cases h3 : resolveContactUuids i contactsDb (minp.contact.getD []) with
            | error e =>
                exact ⟨e, by simp only [exceptBindOk, h2, h3, exceptBindError]⟩
            | ok cs =>
                refine ⟨"Cannot create messages for anonymous organizations", ?_⟩
                simp only [exceptBindOk, h2, h3]
                rfl
  · rfl

/-- Witness for C4 at a concrete event: a message-branch event backed by
hidden flow 3 and switched to reference flow 9 keeps uuid "ev-1", becomes a
flow event, loses its inline message, and now points at flow 9. -/
theorem C4_event_update_branch_switch_witness :
    (CampaignEventWriteSerializer.restore_object 1 7 "fresh-f" "fresh-e"
        { event_obj := some ⟨"ev-1", "camp-1", MESSAGE_EVENT,
            ⟨3, "hid-f", 1, "old", true, false, some "old text"⟩,
            some "old text", 2, "W", 10, "joined"⟩,
          offset := 5, unit := "D", delivery_hour := 12,
          relative_to := "joined",
          flow_obj := some ⟨9, "real-f", 1, "RealFlow", true, false, none⟩ }).uuid
      = "ev-1" ∧
    (CampaignEventWriteSerializer.restore_object 1 7 "fresh-f" "fresh-e"
        { event_obj := some ⟨"ev-1", "camp-1", MESSAGE_EVENT,
            ⟨3, "hid-f", 1, "old", true, false, some "old text"⟩,
            some "old text", 2, "W", 10, "joined"⟩,
          offset := 5, unit := "D", delivery_hour := 12,
          relative_to := "joined",
          flow_obj := some ⟨9, "real-f", 1, "RealFlow", true, false, none⟩ }).eventType
      = FLOW_EVENT ∧
    (CampaignEventWriteSerializer.restore_object 1 7 "fresh-f" "fresh-e"
        { event_obj := some ⟨"ev-1", "camp-1", MESSAGE_EVENT,
            ⟨3, "hid-f", 1, "old", true, false, some "old text"⟩,
            some "old text", 2, "W", 10, "joined"⟩,
          offset := 5, unit := "D", delivery_hour := 12,
          relative_to := "joined",
          flow_obj := some ⟨9, "real-f", 1, "RealFlow", true, false, none⟩ }).message
      = none ∧
    (CampaignEventWriteSerializer.restore_object 1 7 "fresh-f" "fresh-e"
        { event_obj := some ⟨"ev-1", "camp-1", MESSAGE_EVENT,
            ⟨3, "hid-f", 1, "old", true, false, some "old text"⟩,
            some "old text", 2, "W", 10, "joined"⟩,
          offset := 5, unit := "D", delivery_hour := 12,
          relative_to := "joined",
          flow_obj := some ⟨9, "real-f", 1, "RealFlow", true, false, none⟩ }).flow.id
      = 9 ∧
    (CampaignEventWriteSerializer.restore_object 1 7 "fresh-f" "fresh-e"
        { event_obj := some ⟨"ev-1", "camp-1", MESSAGE_EVENT,
            ⟨3, "hid-f", 1, "old", true, false, some "old text"⟩,
            some "old text", 2, "W", 10, "joined"⟩,
          offset := 5, unit := "D", delivery_hour := 12,
          relative_to := "joined",
          flow_obj := some ⟨9, "real-f", 1, "RealFlow", true, false, none⟩ }).flow.uuid
      = "real-f" := by
  exact (C4_event_update_branch_switch 1 7 "fresh-f" "fresh-e"
    { event_obj := some ⟨"ev-1", "camp-1", MESSAGE_EVENT,
        ⟨3, "hid-f", 1, "old", true, false, some "old text"⟩,
        some "old text", 2, "W", 10, "joined"⟩,
      offset := 5, unit := "D", delivery_hour := 12, relative_to := "joined",
      flow_obj := some ⟨9, "real-f", 1, "RealFlow", true, false, none⟩ }
    ⟨"ev-1", "camp-1", MESSAGE_EVENT,
      ⟨3, "hid-f", 1, "old", true, false, some "old text"⟩,
      some "old text", 2, "W", 10, "joined"⟩ rfl).1
    ⟨9, "real-f", 1, "RealFlow", true, false, none⟩ rfl
